import Mathlib

/-!
Verification of the oscillation-detection-and-scoring pipeline of
`validation_demo.py` (class `QuantumSystemHRVDetector`).

Embedding conventions:
* Python floats are modelled as rationals (`ℚ`).
* The opaque numerical library routines (`scipy.signal.welch`'s spectrum
  values, `np.unwrap(np.angle(scipy.signal.hilbert(x)))`, `np.std`) are
  modelled by an abstract `NumKernel` structure carrying only the shape
  facts the surrounding code relies on (output lengths, nonnegativity of a
  standard deviation of a nonempty list).  The repository's own code is
  embedded exactly; the kernel stands for the external library.
* Python exceptions are modelled with `Except PyError`: `KeyError` for a
  missing dictionary key, `ValueError` for the scipy/numpy failure modes
  reachable here (`nperseg must be a positive integer`, `argmin` of an
  empty sequence).
* The single `np.random.uniform(-0.02, 0.02)` draw inside
  `_estimate_error_reduction` and the `np.random.uniform(0.08, 0.12)` draw
  inside `apply_synchronization` are passed as explicit arguments; a
  global-stream wrapper `detectWithGlobalRng` models the actual use of the
  shared global numpy generator.
-/

namespace ValidationDemo

/-- Python exceptions reachable in the embedded fragment. -/
inductive PyError where
  | keyError : PyError
  | valueError : PyError
deriving DecidableEq, Repr

/-- The five health status labels of `_assess_system_health`. -/
inductive HealthStatus where
  | excellent : HealthStatus
  | good : HealthStatus
  | fair : HealthStatus
  | poor : HealthStatus
  | critical : HealthStatus
deriving DecidableEq, Repr

/-- The four benefit tiers of `_generate_interpretation` (thresholds 0.15, 0.10, 0.05). -/
inductive BenefitTier where
  | excellent : BenefitTier
  | good : BenefitTier
  | moderate : BenefitTier
  | limited : BenefitTier
deriving DecidableEq, Repr

/-- The subset of the telemetry dict read by `detect_quantum_pulse`:
`coherence_signal` and `timestamp` are always produced by the generator;
`error_rates` and `gate_fidelities` are modelled as `Option` so that a
missing key (a `KeyError` on access in `_assess_system_health`) is
representable. -/
structure Telemetry where
  coherence_signal : List ℚ
  timestamp : List ℚ
  error_rates : Option (List ℚ)
  gate_fidelities : Option (List ℚ)
deriving DecidableEq, Repr

/-- `np.mean`: sum divided by length (`0` on the empty list, which the
reachable code paths never feed it). -/
def npMean (l : List ℚ) : ℚ := l.sum / (l.length : ℚ)

/-- `np.average(metrics, weights)`: weighted sum divided by the sum of the weights. -/
def npAverage (metrics weights : List ℚ) : ℚ :=
  ((metrics.zip weights).map (fun p => p.1 * p.2)).sum / weights.sum

/-- `np.clip(x, lo, hi)` for scalars. -/
def npClip (x lo hi : ℚ) : ℚ := min (max x lo) hi

/-- `np.diff`: first differences of consecutive elements. -/
def listDiff : List ℚ → List ℚ
  | [] => []
  | [_] => []
  | x :: y :: tl => (y - x) :: listDiff (y :: tl)

/-- Insert into a sorted list (ascending). -/
def insertSorted (x : ℚ) : List ℚ → List ℚ
  | [] => [x]
  | y :: ys => if x ≤ y then x :: y :: ys else y :: insertSorted x ys

/-- Ascending insertion sort, used to model `np.percentile`'s internal sort. -/
def sortQ : List ℚ → List ℚ
  | [] => []
  | x :: xs => insertSorted x (sortQ xs)

/-- `np.percentile(l, q)` with the default linear interpolation: sort
ascending, take the virtual index `(n-1)*q/100` and interpolate between its
floor and ceiling entries. -/
def npPercentile (l : List ℚ) (q : ℚ) : ℚ :=
  let s := sortQ l
  let n := s.length
  if n = 0 then 0
  else
    let h : ℚ := ((n : ℚ) - 1) * q / 100
    let i : ℕ := (⌊h⌋).toNat
    let a := s.getD i 0
    let b := s.getD (i + 1) a
    a + (h - (i : ℚ)) * (b - a)

/-- Helper for `np.argmin`: index of the first minimum. -/
def argminAux : List ℚ → ℕ → ℚ → ℕ → ℕ
  | [], bi, _, _ => bi
  | x :: xs, bi, bv, i => if x < bv then argminAux xs i x (i + 1) else argminAux xs bi bv (i + 1)

/-- `np.argmin`: first index of the minimum; raises `ValueError` on an
empty sequence. -/
def npArgmin : List ℚ → Except PyError ℕ
  | [] => .error .valueError
  | x :: xs => .ok (argminAux xs 0 x 1)

/-- The opaque numerical library routines, with the shape invariants the
surrounding code relies on.  `welchSpectrum x fs n` stands for the
`(freqs, power)` value computed by `scipy.signal.welch` on a nonempty `x`
with effective segment length `n ≥ 1`; `hilbertPhase x` stands for
`np.unwrap(np.angle(scipy.signal.hilbert(x)))`; `std` stands for `np.std`. -/
structure NumKernel where
  welchSpectrum : List ℚ → ℚ → ℕ → List ℚ × List ℚ
  hilbertPhase : List ℚ → List ℚ
  std : List ℚ → ℚ
  welch_freqs_ne : ∀ x fs n, x ≠ [] → 1 ≤ n → (welchSpectrum x fs n).1 ≠ []
  welch_len_eq : ∀ x fs n, (welchSpectrum x fs n).1.length = (welchSpectrum x fs n).2.length
  hilbert_len : ∀ x, (hilbertPhase x).length = x.length
  std_nonneg : ∀ l, l ≠ [] → 0 ≤ std l

/-- `scipy.signal.welch(x, fs, nperseg)`.  Scipy returns empty arrays for an
empty input; with an explicit `nperseg < 1` and nonempty input it raises
`ValueError` (from `_triage_segments`); otherwise `nperseg` is clamped to the
input length (`none` means the default 256) and the spectrum is computed. -/
def npWelch (K : NumKernel) (x : List ℚ) (fs : ℚ) (nperseg : Option ℕ) :
    Except PyError (List ℚ × List ℚ) :=
  if x = [] then .ok ([], [])
  else
    match nperseg with
    | none => .ok (K.welchSpectrum x fs (min 256 x.length))
    | some n => if n < 1 then .error .valueError else .ok (K.welchSpectrum x fs (min n x.length))

/-- `self.target_frequency` set in `__init__`. -/
def targetFrequency : ℚ := 0.67

/-- `_calculate_phase_coherence`: `1.0 / (1.0 + np.std(np.diff(phase)))`. -/
def calculatePhaseCoherence (K : NumKernel) (phase : List ℚ) : ℚ :=
  1 / (1 + K.std (listDiff phase))

/-- The loop body of `_analyze_rhythm_stability`: for `i` from the given
start up to `n_segments` (fuel counts the remaining iterations), slice
`signal_data[i*L : i*L+L]`, break if the slice end exceeds the signal
length, otherwise Welch-estimate the segment and read off the power at the
bin nearest the target frequency. -/
def segmentPowerFrom (K : NumKernel) (fs : ℚ) (sig : List ℚ) (L : ℕ) :
    ℕ → ℕ → Except PyError (List ℚ)
  | _, 0 => .ok []
  | i, fuel + 1 =>
    if sig.length < i * L + L then .ok []
    else
      let segment := (sig.drop (i * L)).take L
      match npWelch K segment fs none with
      | .error e => .error e
      | .ok (freqs, power) =>
        match npArgmin (freqs.map (fun f => |f - targetFrequency|)) with
        | .error e => .error e
        | .ok idx =>
          match segmentPowerFrom K fs sig L (i + 1) fuel with
          | .error e => .error e
          | .ok rest => .ok (power.getD idx 0 :: rest)

/-- The `stabilities` list of `_analyze_rhythm_stability`: one target-band
power per segment, with `n_segments = 10` and `segment_length = len // 10`. -/
def segmentPowers (K : NumKernel) (fs : ℚ) (sig : List ℚ) : Except PyError (List ℚ) :=
  segmentPowerFrom K fs sig (sig.length / 10) 0 10

/-- `_analyze_rhythm_stability`: if more than one segment power was
collected, `clip(1 - std(stabilities)/mean(stabilities), 0, 1)`, else `0.5`.
The `ts` argument mirrors the unused `t` parameter of the source. -/
def analyzeRhythmStability (K : NumKernel) (fs : ℚ) (sig : List ℚ) (ts : List ℚ) :
    Except PyError ℚ :=
  match segmentPowers K fs sig with
  | .error e => .error e
  | .ok stabilities =>
    if 1 < stabilities.length then
      .ok (npClip (1 - K.std stabilities / npMean stabilities) 0 1)
    else .ok 0.5

/-- `healthStatusOf`: the status-label thresholds of `_assess_system_health`. -/
def healthStatusOf (hs : ℚ) : HealthStatus :=
  if hs > 0.8 then .excellent
  else if hs > 0.6 then .good
  else if hs > 0.4 then .fair
  else if hs > 0.2 then .poor
  else .critical

/-- `_assess_system_health`: six sub-metrics combined by
`np.average(metrics, weights=[0.2, 0.2, 0.2, 0.1, 0.15, 0.15])`.  The
accesses `telemetry['error_rates']` and `telemetry['gate_fidelities']`
raise `KeyError` when the key is absent. -/
def assessSystemHealth (pulse_freq snr phase_coherence rhythm_stability : ℚ)
    (t : Telemetry) : Except PyError (ℚ × HealthStatus) :=
  let freq_health := 1 - min (|pulse_freq - 0.67| / 0.01) 1
  let snr_health := min (snr / 3.0) 1
  let phase_health := phase_coherence
  let rhythm_health := rhythm_stability
  match t.error_rates with
  | none => .error .keyError
  | some er =>
    match t.gate_fidelities with
    | none => .error .keyError
    | some gf =>
      let error_health := 1 - npMean er / 0.02
      let fidelity_health := (npMean gf - 0.985) / 0.01
      let hs := npAverage
        [freq_health, snr_health, phase_health, rhythm_health, error_health, fidelity_health]
        [0.2, 0.2, 0.2, 0.1, 0.15, 0.15]
      .ok (hs, healthStatusOf hs)

/-- `_estimate_error_reduction`; `u` is the `np.random.uniform(-0.02, 0.02)`
draw (taken only on the detected branch in the source). -/
def estimateErrorReduction (pulse_detected : Bool) (snr phase_coherence health_score u : ℚ) : ℚ :=
  if !pulse_detected then 0
  else
    let snr_factor := min (snr / 3.0) 1 * 0.12
    let phase_factor := phase_coherence * 0.06
    let health_factor := health_score * 0.05
    let total_reduction := snr_factor + phase_factor + health_factor
    npClip (total_reduction + u) 0 0.18

/-- `benefitTier`: the tiers `_generate_interpretation` branches on. -/
def benefitTier (r : ℚ) : BenefitTier :=
  if r > 0.15 then .excellent
  else if r > 0.10 then .good
  else if r > 0.05 then .moderate
  else .limited

/-- `_generate_interpretation`, abstracted from English sentence templates to
the data the sentences are assembled from: the detected flag, and (when
detected) the status label and the benefit tier together with the reduction
figure embedded into the text. -/
structure Interp where
  pulse_detected : Bool
  health_note : Option HealthStatus
  benefit_note : Option (BenefitTier × ℚ)
deriving DecidableEq, Repr

/-- `_generate_interpretation` on the data level (see `Interp`). -/
def generateInterpretation (pulse_detected : Bool) (status : HealthStatus) (red : ℚ) : Interp :=
  if pulse_detected = false then ⟨false, none, none⟩
  else ⟨true, some status, some (benefitTier red, red)⟩

/-- The dict returned by `detect_quantum_pulse`. -/
structure Report where
  quantum_pulse_detected : Bool
  pulse_frequency : ℚ
  target_frequency : ℚ
  frequency_deviation : ℚ
  pulse_strength : ℚ
  snr : ℚ
  phase_coherence : ℚ
  rhythm_stability : ℚ
  system_health_score : ℚ
  system_health_status : HealthStatus
  estimated_error_reduction : ℚ
  interp : Interp
deriving DecidableEq, Repr

/-- The SNR block of `detect_quantum_pulse`: mean power over bins within
±0.1 Hz of `pulse_freq`, divided by the mean power over bins in the
0.2–20 Hz reference band outside that window (floor `1e-10` when no such
bin exists). -/
def pulseSnr (freqs power : List ℚ) (pulse_freq : ℚ) : ℚ :=
  let pairs := freqs.zip power
  let inBand := fun f => pulse_freq - 0.1 < f ∧ f < pulse_freq + 0.1
  let signal_power := npMean ((pairs.filter (fun p => decide (inBand p.1))).map Prod.snd)
  let noiseList := (pairs.filter (fun p => decide (0.2 < p.1 ∧ p.1 < 20 ∧ ¬ inBand p.1))).map Prod.snd
  let noise_power := if noiseList = [] then 0.0000000001 else npMean noiseList
  signal_power / noise_power

/-- The four-way detection gate of `detect_quantum_pulse` (lines 142–147):
frequency deviation below 0.01 Hz, SNR above 2.0, peak power above the 90th
percentile of the spectrum, phase coherence above 0.7. -/
def pulseGate (pulse_freq snr pulse_power phase_coherence : ℚ) (power : List ℚ) : Bool :=
  decide (|pulse_freq - targetFrequency| < 0.01) &&
  decide (snr > 2.0) &&
  decide (pulse_power > npPercentile power 90) &&
  decide (phase_coherence > 0.7)

/-- The dict literal returned by `detect_quantum_pulse`, assembled from the
computed scalars (the gate and the benefit estimate are computed here, as
in the source). -/
def mkReport (pulse_freq pulse_power snr phase_coherence rhythm_stability health_score : ℚ)
    (health_status : HealthStatus) (power : List ℚ) (u : ℚ) : Report :=
  let pulse_detected := pulseGate pulse_freq snr pulse_power phase_coherence power
  let error_reduction := estimateErrorReduction pulse_detected snr phase_coherence health_score u
  { quantum_pulse_detected := pulse_detected
    pulse_frequency := pulse_freq
    target_frequency := targetFrequency
    frequency_deviation := |pulse_freq - targetFrequency|
    pulse_strength := pulse_power
    snr := snr
    phase_coherence := phase_coherence
    rhythm_stability := rhythm_stability
    system_health_score := health_score
    system_health_status := health_status
    estimated_error_reduction := error_reduction
    interp := generateInterpretation pulse_detected health_status error_reduction }

/-- The part of `detect_quantum_pulse` after the Welch spectrum
`(freqs, power)` has been computed: nearest-bin lookup, SNR, phase
coherence, rhythm stability, the four-way detection gate, health
assessment and benefit estimate. -/
def detectAfterSpectrum (K : NumKernel) (fs : ℚ) (t : Telemetry) (u : ℚ)
    (freqs power : List ℚ) : Except PyError Report :=
  match npArgmin (freqs.map (fun f => |f - targetFrequency|)) with
  | .error e => .error e
  | .ok target_idx =>
    let pulse_freq := freqs.getD target_idx 0
    let pulse_power := power.getD target_idx 0
    let snr := pulseSnr freqs power pulse_freq
    let instantaneous_phase := K.hilbertPhase t.coherence_signal
    let phase_coherence := calculatePhaseCoherence K instantaneous_phase
    match analyzeRhythmStability K fs t.coherence_signal t.timestamp with
    | .error e => .error e
    | .ok rhythm_stability =>
      match assessSystemHealth pulse_freq snr phase_coherence rhythm_stability t with
      | .error e => .error e
      | .ok (health_score, health_status) =>
        .ok (mkReport pulse_freq pulse_power snr phase_coherence rhythm_stability
          health_score health_status power u)

/-- `detect_quantum_pulse`: Welch spectrum with
`nperseg = min(1024, len(signal_data)//4)`, then `detectAfterSpectrum`.
`fs` is `self.sampling_rate`; `u` is the uniform perturbation draw. -/
def detectQuantumPulse (K : NumKernel) (fs : ℚ) (t : Telemetry) (u : ℚ) :
    Except PyError Report :=
  match npWelch K t.coherence_signal fs (some (min 1024 (t.coherence_signal.length / 4))) with
  | .error e => .error e
  | .ok (freqs, power) => detectAfterSpectrum K fs t u freqs power

/-- `detect_quantum_pulse` as actually called: the perturbation comes from
the shared global numpy generator, modelled as a stream of upcoming draws.
`np.random.uniform` is reached only when the pulse is detected (the
not-detected branch of `_estimate_error_reduction` returns before drawing),
so the stream advances exactly in that case. -/
def detectWithGlobalRng (K : NumKernel) (fs : ℚ) (t : Telemetry) (rng : List ℚ) :
    Except PyError Report × List ℚ :=
  match detectQuantumPulse K fs t (rng.headD 0) with
  | .ok r => if r.quantum_pulse_detected then (.ok r, rng.tail) else (.ok r, rng)
  | .error e => (.error e, rng)

/-- The dict returned by `apply_synchronization`: either the not-applied
variant (detected flag false) or the full record, with the four
`timing_adjustments` booleans inlined in source order. -/
inductive SyncOutcome where
  | notApplied (error_reduction : ℚ) (message : String) : SyncOutcome
  | applied (original_error_rate synchronized_error_rate error_reduction relative_improvement : ℚ)
      (gate_operations_aligned measurement_timing_optimized
        idle_periods_synchronized pulse_phase_tracking : Bool)
      (frequency strength coherence : ℚ) (system_health_impact : HealthStatus) : SyncOutcome
deriving DecidableEq, Repr

/-- `apply_synchronization`.  `circuit_data` is never read (any type `α`);
`base_error` is the internal `np.random.uniform(0.08, 0.12)` draw — the
operation takes no caller-supplied baseline error rate and performs no
argument validation. -/
def applySynchronization {α : Type} (circuit_data : α) (pa : Report) (base_error : ℚ) :
    SyncOutcome :=
  if pa.quantum_pulse_detected = false then
    .notApplied 0 "Cannot apply synchronization: quantum pulse not detected"
  else
    let pulse_freq := pa.pulse_frequency
    let pulse_strength := pa.pulse_strength
    let phase_coherence := pa.phase_coherence
    let reduction := pa.estimated_error_reduction
    let synchronized_error := base_error * (1 - reduction)
    .applied base_error synchronized_error reduction (reduction * 100)
      true true (decide (phase_coherence > 0.7)) true
      pulse_freq pulse_strength phase_coherence pa.system_health_status


/-! ### Concrete instances used by witnesses and counterexamples

`K1` is a concrete numerical kernel (a legitimate instantiation of the
abstract library routines: a fixed three-bin spectrum, the identity as the
instantaneous phase and a piecewise-constant standard deviation), and `t1`
a ten-sample telemetry record with both auxiliary channels present.  On
this pair the pipeline detects the pulse, which the evaluation lemmas below
compute exactly. -/

/-- A concrete numerical kernel for evaluating the pipeline on closed inputs. -/
def K1 : NumKernel where
  welchSpectrum := fun _ _ _ => ([0, 0.67, 5], [0, 41, 20])
  hilbertPhase := fun x => x
  std := fun l => if l.length = 9 then 3/10 else 0
  welch_freqs_ne := by intro x fs n _ _; simp
  welch_len_eq := by intro x fs n; simp
  hilbert_len := by intro x; rfl
  std_nonneg := by intro l _; dsimp only; split <;> norm_num

/-- A concrete telemetry sample (ten-sample signal, both auxiliary channels). -/
def t1 : Telemetry where
  coherence_signal := [0, 0, 0, 0, 0, 0, 0, 0, 0, 0]
  timestamp := []
  error_rates := some [0.01]
  gate_fidelities := some [0.99]

lemma hwelch1 : npWelch K1 t1.coherence_signal 100
    (some (min 1024 (t1.coherence_signal.length / 4))) = .ok ([0, 0.67, 5], [0, 41, 20]) := by
  rw [npWelch, if_neg (by simp [t1])]
  norm_num [K1, t1]

lemma hperc1 : npPercentile [0, 41, 20] 90 = 36.8 := by
  norm_num [npPercentile, sortQ, insertSorted]

lemma hseg1 : segmentPowers K1 100 [0, 0, 0, 0, 0, 0, 0, 0, 0, 0] = .ok
    [41, 41, 41, 41, 41, 41, 41, 41, 41, 41] := by
  norm_num [segmentPowers, segmentPowerFrom, npWelch, K1, npArgmin, argminAux,
    targetFrequency, abs_of_nonneg, abs_of_nonpos]

lemma hrhythm1 : analyzeRhythmStability K1 100 [0, 0, 0, 0, 0, 0, 0, 0, 0, 0] [] = .ok 1 := by
  rw [analyzeRhythmStability, hseg1]
  norm_num [K1, npClip, npMean, min_def, max_def]

lemma hphase1 : calculatePhaseCoherence K1 (K1.hilbertPhase [0, 0, 0, 0, 0, 0, 0, 0, 0, 0])
    = 10/13 := by
  norm_num [calculatePhaseCoherence, K1, listDiff]

/-- The report produced by `detectQuantumPulse K1 100 t1 u`, as a function of
the perturbation draw `u` (see `detect_t1`). -/
def Rgen (u : ℚ) : Report :=
  let red := npClip (3221/19500 + u) 0 0.18
  { quantum_pulse_detected := true
    pulse_frequency := 0.67
    target_frequency := 0.67
    frequency_deviation := 0
    pulse_strength := 41
    snr := 41/20
    phase_coherence := 10/13
    rhythm_stability := 1
    system_health_score := 722/975
    system_health_status := .good
    estimated_error_reduction := red
    interp := ⟨true, some .good, some (benefitTier red, red)⟩ }

/-- Exact evaluation of the pipeline on the concrete pair `(K1, t1)`. -/
lemma detect_t1 (u : ℚ) : detectQuantumPulse K1 100 t1 u = .ok (Rgen u) := by
  rw [detectQuantumPulse, hwelch1]
  norm_num [detectAfterSpectrum, npArgmin, argminAux, hphase1, hrhythm1, hperc1, t1, Rgen,
    mkReport, pulseGate, pulseSnr,
    assessSystemHealth, npAverage, npMean, healthStatusOf, estimateErrorReduction,
    generateInterpretation, targetFrequency,
    min_def, abs_of_nonneg, abs_of_nonpos, List.filter, List.zip, List.zipWith]

/-- Successful runs of `detectAfterSpectrum` decompose into a successful
nearest-bin lookup, rhythm-stability analysis and health assessment, and the
report is the assembled record. -/
lemma detectAfterSpectrum_ok_inv {K : NumKernel} {fs : ℚ} {t : Telemetry} {u : ℚ}
    {freqs power : List ℚ} {r : Report}
    (hd : detectAfterSpectrum K fs t u freqs power = .ok r) :
    ∃ idx rhythm hs status,
      npArgmin (freqs.map (fun f => |f - targetFrequency|)) = .ok idx ∧
      analyzeRhythmStability K fs t.coherence_signal t.timestamp = .ok rhythm ∧
      assessSystemHealth (freqs.getD idx 0) (pulseSnr freqs power (freqs.getD idx 0))
        (calculatePhaseCoherence K (K.hilbertPhase t.coherence_signal)) rhythm t
        = .ok (hs, status) ∧
      r = mkReport (freqs.getD idx 0) (power.getD idx 0)
            (pulseSnr freqs power (freqs.getD idx 0))
            (calculatePhaseCoherence K (K.hilbertPhase t.coherence_signal))
            rhythm hs status power u := by
  rw [detectAfterSpectrum] at hd
  cases ha : npArgmin (freqs.map (fun f => |f - targetFrequency|)) with
  | error e => rw [ha] at hd; exact absurd hd (by simp)
  | ok idx =>
    rw [ha] at hd
    dsimp only at hd
    cases hb : analyzeRhythmStability K fs t.coherence_signal t.timestamp with
    | error e => rw [hb] at hd; exact absurd hd (by simp)
    | ok rhythm =>
      rw [hb] at hd
      dsimp only at hd
      cases hc : assessSystemHealth (freqs.getD idx 0) (pulseSnr freqs power (freqs.getD idx 0))
          (calculatePhaseCoherence K (K.hilbertPhase t.coherence_signal)) rhythm t with
      | error e => rw [hc] at hd; exact absurd hd (by simp)
      | ok p =>
        obtain ⟨hs, status⟩ := p
        rw [hc] at hd
        dsimp only at hd
        injection hd with h
        exact ⟨idx, rhythm, hs, status, rfl, rfl, hc, h.symm⟩

/-- Successful runs of `detectQuantumPulse` factor through a successful
Welch estimate. -/
lemma detectQuantumPulse_ok_inv {K : NumKernel} {fs : ℚ} {t : Telemetry} {u : ℚ} {r : Report}
    (hd : detectQuantumPulse K fs t u = .ok r) :
    ∃ freqs power,
      npWelch K t.coherence_signal fs (some (min 1024 (t.coherence_signal.length / 4)))
        = .ok (freqs, power) ∧
      detectAfterSpectrum K fs t u freqs power = .ok r := by
  rw [detectQuantumPulse] at hd
  cases hw : npWelch K t.coherence_signal fs (some (min 1024 (t.coherence_signal.length / 4))) with
  | error e => rw [hw] at hd; exact absurd hd (by simp)
  | ok p =>
    obtain ⟨freqs, power⟩ := p
    rw [hw] at hd
    exact ⟨freqs, power, rfl, hd⟩


/-! ### Helper lemmas -/

/-- `np.diff` shortens a list by one. -/
lemma listDiff_length : ∀ l : List ℚ, (listDiff l).length = l.length - 1
  | [] => rfl
  | [_] => rfl
  | x :: y :: tl => by
    have ih := listDiff_length (y :: tl)
    simp [listDiff] at ih ⊢
    omega

/-- A clipped value lies in the clipping interval. -/
lemma npClip_mem (x lo hi : ℚ) (h : lo ≤ hi) : lo ≤ npClip x lo hi ∧ npClip x lo hi ≤ hi :=
  ⟨le_min (le_max_right x lo) h, min_le_right _ _⟩

/-- The benefit estimate always lies in `[0, 0.18]`: the not-detected
branch returns `0` and the detected branch is clipped to that interval. -/
lemma estimateErrorReduction_mem (d : Bool) (snr coh hs u : ℚ) :
    0 ≤ estimateErrorReduction d snr coh hs u ∧ estimateErrorReduction d snr coh hs u ≤ 0.18 := by
  rw [estimateErrorReduction]
  cases d with
  | false => norm_num
  | true =>
    simp only [Bool.not_true, Bool.false_eq_true, if_false]
    exact npClip_mem _ _ _ (by norm_num)

/-- A report with detected flag `false` (used to instantiate universally
quantified report arguments in witnesses). -/
def R0 : Report :=
  { quantum_pulse_detected := false, pulse_frequency := 0.5, target_frequency := 0.67,
    frequency_deviation := 0.17, pulse_strength := 1, snr := 1, phase_coherence := 0.5,
    rhythm_stability := 0.5, system_health_score := 0.5, system_health_status := .fair,
    estimated_error_reduction := 0, interp := ⟨false, none, none⟩ }

/-! ### Claims -/

/-- C1: for every analysis run (any numerical kernel, sampling rate,
telemetry and perturbation draw) whose Welch spectrum is `(freqs, power)`,
the detected flag of the returned report is `true` iff all four gating
conditions hold together: `|measured_frequency - 0.67| < 0.01`,
`SNR > 2.0`, peak power strictly above the 90th percentile of all spectrum
power values, and `phase_coherence > 0.7`; if any one fails the flag is
`false`. -/
theorem C1_detection_gate (K : NumKernel) (fs : ℚ) (t : Telemetry) (u : ℚ) (r : Report)
    (freqs power : List ℚ)
    (hw : npWelch K t.coherence_signal fs (some (min 1024 (t.coherence_signal.length / 4)))
      = .ok (freqs, power))
    (hd : detectQuantumPulse K fs t u = .ok r) :
    r.quantum_pulse_detected = true ↔
      (|r.pulse_frequency - 0.67| < 0.01 ∧ r.snr > 2.0 ∧
       r.pulse_strength > npPercentile power 90 ∧ r.phase_coherence > 0.7) := by
  obtain ⟨freqs', power', hw', hd'⟩ := detectQuantumPulse_ok_inv hd
  rw [hw] at hw'
  injection hw' with hp
  injection hp with h1 h2
  subst h1 h2
  obtain ⟨idx, rhythm, hs, status, ha, hb, hc, hr⟩ := detectAfterSpectrum_ok_inv hd'
  subst hr
  simp only [mkReport, pulseGate, targetFrequency, Bool.and_eq_true, decide_eq_true_eq]
  tauto

/-- C1 witness: on the concrete kernel and telemetry, the equivalence holds
at a run where the gate passes. -/
theorem C1_detection_gate_witness :
    (npWelch K1 t1.coherence_signal 100 (some (min 1024 (t1.coherence_signal.length / 4)))
      = .ok ([0, 0.67, 5], [0, 41, 20])) ∧
    (detectQuantumPulse K1 100 t1 0 = .ok (Rgen 0)) ∧
    ((Rgen 0).quantum_pulse_detected = true ↔
      (|(Rgen 0).pulse_frequency - 0.67| < 0.01 ∧ (Rgen 0).snr > 2.0 ∧
       (Rgen 0).pulse_strength > npPercentile [0, 41, 20] 90 ∧ (Rgen 0).phase_coherence > 0.7)) :=
  ⟨hwelch1, detect_t1 0,
    C1_detection_gate K1 100 t1 0 (Rgen 0) [0, 0.67, 5] [0, 41, 20] hwelch1 (detect_t1 0)⟩

/-- C2: for every analysis run with perturbation draw `u ∈ [-0.02, 0.02]`,
a not-detected report carries benefit exactly `0`; a detected report
carries `clip(min(SNR/3,1)*0.12 + phase_coherence*0.06 + health_score*0.05
+ u, 0, 0.18)`; and in both cases the benefit lies in `[0, 0.18]`. -/
theorem C2_benefit_estimate (K : NumKernel) (fs : ℚ) (t : Telemetry) (u : ℚ) (r : Report)
    (hu : -0.02 ≤ u ∧ u ≤ 0.02)
    (hd : detectQuantumPulse K fs t u = .ok r) :
    (r.quantum_pulse_detected = false → r.estimated_error_reduction = 0) ∧
    (r.quantum_pulse_detected = true → r.estimated_error_reduction =
      npClip (min (r.snr / 3.0) 1 * 0.12 + r.phase_coherence * 0.06 +
        r.system_health_score * 0.05 + u) 0 0.18) ∧
    0 ≤ r.estimated_error_reduction ∧ r.estimated_error_reduction ≤ 0.18 := by
  obtain ⟨freqs, power, hw, hd'⟩ := detectQuantumPulse_ok_inv hd
  obtain ⟨idx, rhythm, hs, status, ha, hb, hc, hr⟩ := detectAfterSpectrum_ok_inv hd'
  subst hr
  simp only [mkReport]
  refine ⟨?_, ?_, ?_⟩
  · intro h; simp only [h, estimateErrorReduction]; norm_num
  · intro h; simp only [h, estimateErrorReduction]; norm_num
  · exact estimateErrorReduction_mem _ _ _ _ _

/-- C2 witness: the benefit formula and bounds at the concrete detected run
with `u = 0`. -/
theorem C2_benefit_estimate_witness :
    ((-0.02 : ℚ) ≤ 0 ∧ (0 : ℚ) ≤ 0.02) ∧
    (detectQuantumPulse K1 100 t1 0 = .ok (Rgen 0)) ∧
    (((Rgen 0).quantum_pulse_detected = false → (Rgen 0).estimated_error_reduction = 0) ∧
     ((Rgen 0).quantum_pulse_detected = true → (Rgen 0).estimated_error_reduction =
       npClip (min ((Rgen 0).snr / 3.0) 1 * 0.12 + (Rgen 0).phase_coherence * 0.06 +
         (Rgen 0).system_health_score * 0.05 + 0) 0 0.18) ∧
     0 ≤ (Rgen 0).estimated_error_reduction ∧ (Rgen 0).estimated_error_reduction ≤ 0.18) :=
  ⟨by norm_num, detect_t1 0,
    C2_benefit_estimate K1 100 t1 0 (Rgen 0) (by norm_num) (detect_t1 0)⟩

/-- C3 counterexample: a telemetry sample without the `error_rates` channel
makes the health scorer raise `KeyError` — no neutral `0.5` is substituted
and the scorer does not succeed, contradicting the claim's absent-channel
clause. -/
theorem C3_counterexample :
    assessSystemHealth 0.67 3 1 1 ⟨[], [], none, none⟩ = .error .keyError := rfl

/-- C3 (amended): when both auxiliary channels are present, the health
score is exactly the weighted average with weights (0.20, 0.20, 0.20,
0.10, 0.15, 0.15) of the six sub-metrics; when a channel is absent the
scorer raises `KeyError` instead of substituting a neutral 0.5 (see
`C3_counterexample`). -/
theorem C3_health_weighted_average (pf snr coh rh : ℚ) (t : Telemetry) (er gf : List ℚ)
    (h1 : t.error_rates = some er) (h2 : t.gate_fidelities = some gf) :
    assessSystemHealth pf snr coh rh t =
      .ok (npAverage
            [1 - min (|pf - 0.67| / 0.01) 1, min (snr / 3.0) 1, coh, rh,
              1 - npMean er / 0.02, (npMean gf - 0.985) / 0.01]
            [0.2, 0.2, 0.2, 0.1, 0.15, 0.15],
          healthStatusOf (npAverage
            [1 - min (|pf - 0.67| / 0.01) 1, min (snr / 3.0) 1, coh, rh,
              1 - npMean er / 0.02, (npMean gf - 0.985) / 0.01]
            [0.2, 0.2, 0.2, 0.1, 0.15, 0.15])) ∧
    npAverage
        [1 - min (|pf - 0.67| / 0.01) 1, min (snr / 3.0) 1, coh, rh,
          1 - npMean er / 0.02, (npMean gf - 0.985) / 0.01]
        [0.2, 0.2, 0.2, 0.1, 0.15, 0.15]
      = 0.2 * (1 - min (|pf - 0.67| / 0.01) 1) + 0.2 * min (snr / 3.0) 1 + 0.2 * coh
        + 0.1 * rh + 0.15 * (1 - npMean er / 0.02) + 0.15 * ((npMean gf - 0.985) / 0.01) := by
  constructor
  · rw [assessSystemHealth, h1, h2]
  · rw [npAverage]
    norm_num [List.zip, List.zipWith]
    ring

/-- C3 witness: the weighted-average form on the concrete sample `t1`. -/
theorem C3_health_weighted_average_witness :
    (t1.error_rates = some [0.01] ∧ t1.gate_fidelities = some [0.99]) ∧
    (assessSystemHealth 0.67 (41/20) (10/13) 1 t1 =
      .ok (npAverage
            [1 - min (|(0.67 : ℚ) - 0.67| / 0.01) 1, min ((41/20) / 3.0) 1, 10/13, 1,
              1 - npMean [0.01] / 0.02, (npMean [0.99] - 0.985) / 0.01]
            [0.2, 0.2, 0.2, 0.1, 0.15, 0.15],
          healthStatusOf (npAverage
            [1 - min (|(0.67 : ℚ) - 0.67| / 0.01) 1, min ((41/20) / 3.0) 1, 10/13, 1,
              1 - npMean [0.01] / 0.02, (npMean [0.99] - 0.985) / 0.01]
            [0.2, 0.2, 0.2, 0.1, 0.15, 0.15])) ∧
    npAverage
        [1 - min (|(0.67 : ℚ) - 0.67| / 0.01) 1, min ((41/20) / 3.0) 1, 10/13, 1,
          1 - npMean [0.01] / 0.02, (npMean [0.99] - 0.985) / 0.01]
        [0.2, 0.2, 0.2, 0.1, 0.15, 0.15]
      = 0.2 * (1 - min (|(0.67 : ℚ) - 0.67| / 0.01) 1) + 0.2 * min ((41/20) / 3.0) 1
        + 0.2 * (10/13) + 0.1 * 1 + 0.15 * (1 - npMean [0.01] / 0.02)
        + 0.15 * ((npMean [0.99] - 0.985) / 0.01)) :=
  ⟨⟨rfl, rfl⟩, C3_health_weighted_average 0.67 (41/20) (10/13) 1 t1 [0.01] [0.99] rfl rfl⟩

/-- C6: for every report whose detected flag is false, every circuit value
and every internal base-error draw, `apply_synchronization` returns the
not-applied variant with benefit exactly `0` and the fixed explanatory
message. -/
theorem C6_not_detected_sync {α : Type} (c : α) (pa : Report) (base : ℚ)
    (h : pa.quantum_pulse_detected = false) :
    applySynchronization c pa base =
      .notApplied 0 "Cannot apply synchronization: quantum pulse not detected" := by
  rw [applySynchronization, if_pos h]

/-- C6 witness: the not-applied outcome on a concrete not-detected report. -/
theorem C6_not_detected_sync_witness :
    (R0.quantum_pulse_detected = false) ∧
    (applySynchronization (0 : ℚ) R0 (1/2) =
      .notApplied 0 "Cannot apply synchronization: quantum pulse not detected") :=
  ⟨rfl, C6_not_detected_sync (0 : ℚ) R0 (1/2) rfl⟩

/-- C7 counterexample: called with the baseline-error position holding `5`
(far outside `[0, 1]`), the operation does not fail — there is no
`InvalidArgumentError` anywhere in the code, no argument validation, and
the value is not a caller argument but the internal `U(0.08, 0.12)` draw;
the run succeeds and returns the applied record built from `5`. -/
theorem C7_counterexample :
    applySynchronization (0 : ℚ) (Rgen 0) 5 =
      .applied 5 (5 * (1 - 3221/19500)) (3221/19500) (3221/19500 * 100)
        true true true true 0.67 41 (10/13) HealthStatus.good := by
  rw [applySynchronization, if_neg (by rw [Rgen]; norm_num)]
  norm_num [Rgen, npClip, min_def, max_def]

/-- C7 (amended): `apply_synchronization` takes no caller-supplied baseline
and never validates or fails; its base error rate is the internal uniform
draw from `[0.08, 0.12]` (additional randomness beyond the report), and for
every detected report and every draw it returns original = drawn base,
adjusted = base × (1 − report benefit), and the applied benefit. -/
theorem C7_sync_formula {α : Type} (c : α) (pa : Report) (base : ℚ)
    (h : pa.quantum_pulse_detected = true) :
    applySynchronization c pa base =
      .applied base (base * (1 - pa.estimated_error_reduction)) pa.estimated_error_reduction
        (pa.estimated_error_reduction * 100) true true
        (decide (pa.phase_coherence > 0.7)) true
        pa.pulse_frequency pa.pulse_strength pa.phase_coherence pa.system_health_status := by
  rw [applySynchronization, if_neg (by simp [h])]

/-- C7 witness: the applied-record formula at a concrete detected report
and a concrete draw. -/
theorem C7_sync_formula_witness :
    ((Rgen 0).quantum_pulse_detected = true) ∧
    (applySynchronization (0 : ℚ) (Rgen 0) (1/10) =
      .applied (1/10) ((1/10) * (1 - (Rgen 0).estimated_error_reduction))
        (Rgen 0).estimated_error_reduction ((Rgen 0).estimated_error_reduction * 100) true true
        (decide ((Rgen 0).phase_coherence > 0.7)) true
        (Rgen 0).pulse_frequency (Rgen 0).pulse_strength (Rgen 0).phase_coherence
        (Rgen 0).system_health_status) :=
  ⟨rfl, C7_sync_formula (0 : ℚ) (Rgen 0) (1/10) rfl⟩

/-- C8: for every raw signal of at least 3 samples, the phase coherence
computed by the pipeline equals `1 / (1 + std(diff(unwrapped instantaneous
phase)))` and lies strictly in `(0, 1]`. -/
theorem C8_phase_coherence (K : NumKernel) (sig : List ℚ) (h : 3 ≤ sig.length) :
    calculatePhaseCoherence K (K.hilbertPhase sig)
      = 1 / (1 + K.std (listDiff (K.hilbertPhase sig))) ∧
    0 < calculatePhaseCoherence K (K.hilbertPhase sig) ∧
    calculatePhaseCoherence K (K.hilbertPhase sig) ≤ 1 := by
  have hlen : (listDiff (K.hilbertPhase sig)).length = sig.length - 1 := by
    rw [listDiff_length, K.hilbert_len]
  have hne : listDiff (K.hilbertPhase sig) ≠ [] := by
    intro hcon
    rw [hcon] at hlen
    simp at hlen
    omega
  have hstd := K.std_nonneg _ hne
  refine ⟨rfl, ?_, ?_⟩
  · rw [calculatePhaseCoherence]
    exact div_pos one_pos (by linarith)
  · rw [calculatePhaseCoherence, div_le_one (by linarith)]
    linarith

/-- C8 witness: the coherence value `10/13` of the concrete run lies in
`(0, 1]` and matches the formula. -/
theorem C8_phase_coherence_witness :
    (3 ≤ ([0, 0, 0, 0, 0, 0, 0, 0, 0, 0] : List ℚ).length) ∧
    (calculatePhaseCoherence K1 (K1.hilbertPhase [0, 0, 0, 0, 0, 0, 0, 0, 0, 0])
      = 1 / (1 + K1.std (listDiff (K1.hilbertPhase [0, 0, 0, 0, 0, 0, 0, 0, 0, 0]))) ∧
    0 < calculatePhaseCoherence K1 (K1.hilbertPhase [0, 0, 0, 0, 0, 0, 0, 0, 0, 0]) ∧
    calculatePhaseCoherence K1 (K1.hilbertPhase [0, 0, 0, 0, 0, 0, 0, 0, 0, 0]) ≤ 1) :=
  ⟨by norm_num, C8_phase_coherence K1 [0, 0, 0, 0, 0, 0, 0, 0, 0, 0] (by norm_num)⟩

/-- C10: `apply_synchronization` never reads `circuit_data`: for any two
circuit values (of any type) and the same report and internal draw, the
outcomes coincide. -/
theorem C10_circuit_data_unused {α : Type} (a b : α) (pa : Report) (base : ℚ) :
    applySynchronization a pa base = applySynchronization b pa base := rfl


/-! ### Rhythm-stability machinery (C9, C5) -/

/-- With `segment_length = 0` (signal shorter than 10 samples) every
iteration slices an empty segment, whose empty spectrum makes `np.argmin`
raise `ValueError`. -/
lemma segmentPowerFrom_L0_err (K : NumKernel) (fs : ℚ) (sig : List ℚ) (i fuel : ℕ) :
    segmentPowerFrom K fs sig 0 i (fuel + 1) = .error .valueError := by
  simp only [segmentPowerFrom]
  rw [if_neg (by simp)]
  simp [npWelch, npArgmin]

/-- A signal shorter than 10 samples makes `_analyze_rhythm_stability`
raise `ValueError` (the `0.5` fallback is unreachable). -/
lemma analyzeRhythmStability_short (K : NumKernel) (fs : ℚ) (sig ts : List ℚ)
    (h : sig.length < 10) :
    analyzeRhythmStability K fs sig ts = .error .valueError := by
  have hL : sig.length / 10 = 0 := Nat.div_eq_of_lt h
  rw [analyzeRhythmStability, segmentPowers, hL,
    segmentPowerFrom_L0_err K fs sig 0 9]

/-- With a positive segment length covering ten segments, the collection
loop succeeds and returns one power value per remaining iteration. -/
lemma segmentPowerFrom_ok (K : NumKernel) (fs : ℚ) (sig : List ℚ) (L : ℕ)
    (hL : 1 ≤ L) (hlen : 10 * L ≤ sig.length) :
    ∀ fuel i, i + fuel ≤ 10 → ∃ st, segmentPowerFrom K fs sig L i fuel = .ok st ∧
      st.length = fuel := by
  intro fuel
  induction fuel with
  | zero => exact fun i _ => ⟨[], rfl, rfl⟩
  | succ n ih =>
    intro i h
    have hc : ¬ (sig.length < i * L + L) := by
      have h1 : (i + 1) * L ≤ 10 * L := Nat.mul_le_mul_right L (by omega)
      have h2 : (i + 1) * L = i * L + L := by ring
      omega
    have hseglen : ((sig.drop (i * L)).take L).length = L := by
      simp only [List.length_take, List.length_drop]
      omega
    have hseg : ((sig.drop (i * L)).take L) ≠ [] := by
      intro hcon
      rw [hcon] at hseglen
      simp at hseglen
      omega
    have hnper : 1 ≤ min 256 ((sig.drop (i * L)).take L).length := by
      rw [hseglen]; omega
    have hfr := K.welch_freqs_ne ((sig.drop (i * L)).take L) fs
      (min 256 ((sig.drop (i * L)).take L).length) hseg hnper
    obtain ⟨st, hst, hstlen⟩ := ih (i + 1) (by omega)
    simp only [segmentPowerFrom]
    rw [if_neg hc, npWelch, if_neg hseg]
    cases hf : (K.welchSpectrum ((sig.drop (i * L)).take L) fs
        (min 256 ((sig.drop (i * L)).take L).length)).1 with
    | nil => exact absurd hf hfr
    | cons a as =>
      refine ⟨(K.welchSpectrum ((sig.drop (i * L)).take L) fs
          (min 256 ((sig.drop (i * L)).take L).length)).2.getD
          (argminAux (as.map (fun f => |f - targetFrequency|)) 0 (|a - targetFrequency|) 1) 0
          :: st, ?_, by simp [hstlen]⟩
      have hsp : K.welchSpectrum ((sig.drop (i * L)).take L) fs
          (min 256 ((sig.drop (i * L)).take L).length)
          = (a :: as, (K.welchSpectrum ((sig.drop (i * L)).take L) fs
              (min 256 ((sig.drop (i * L)).take L).length)).2) := by
        rw [← hf]
      rw [hsp]
      simp only [List.map, npArgmin]
      rw [hst]

/-- A signal of at least 10 samples always yields ten segment powers, and
`_analyze_rhythm_stability` returns the clipped dispersion score. -/
lemma analyzeRhythmStability_long (K : NumKernel) (fs : ℚ) (sig ts : List ℚ)
    (h : 10 ≤ sig.length) :
    ∃ st, segmentPowers K fs sig = .ok st ∧ st.length = 10 ∧
      analyzeRhythmStability K fs sig ts = .ok (npClip (1 - K.std st / npMean st) 0 1) := by
  have hL : 1 ≤ sig.length / 10 := by omega
  have hlen : 10 * (sig.length / 10) ≤ sig.length := Nat.mul_div_le sig.length 10
  obtain ⟨st, hst, hstlen⟩ := segmentPowerFrom_ok K fs sig (sig.length / 10) hL hlen 10 0
    (by omega)
  refine ⟨st, hst, hstlen, ?_⟩
  rw [analyzeRhythmStability, segmentPowers] at *
  rw [hst]
  dsimp only
  rw [if_pos (by omega)]


/-- C9 counterexample: on a five-sample signal (too short to partition, so
the claim prescribes a neutral `0.5`), `_analyze_rhythm_stability` instead
raises `ValueError`: `segment_length = 0` makes every slice empty and
`np.argmin` fails on the empty per-segment spectrum. -/
theorem C9_counterexample :
    analyzeRhythmStability K1 100 [1, 2, 3, 4, 5] [] ≠ .ok 0.5 := by
  rw [analyzeRhythmStability_short K1 100 [1, 2, 3, 4, 5] [] (by norm_num)]
  simp

/-- C9 (amended): for a signal of at least 10 samples the analysis
partitions it into 10 equal segments (trailing remainder dropped), collects
one target-band power per segment, and returns
`clip(1 - std(powers)/mean(powers), 0, 1) ∈ [0, 1]`; for a shorter signal
it does not return the neutral `0.5` but raises `ValueError` (the
fewer-than-2-segments branch is unreachable). -/
theorem C9_rhythm_stability (K : NumKernel) (fs : ℚ) (sig ts : List ℚ) :
    (sig.length < 10 → analyzeRhythmStability K fs sig ts = .error .valueError) ∧
    (10 ≤ sig.length → ∃ st, segmentPowers K fs sig = .ok st ∧ st.length = 10 ∧
      analyzeRhythmStability K fs sig ts = .ok (npClip (1 - K.std st / npMean st) 0 1) ∧
      0 ≤ npClip (1 - K.std st / npMean st) 0 1 ∧
      npClip (1 - K.std st / npMean st) 0 1 ≤ 1) := by
  constructor
  · exact analyzeRhythmStability_short K fs sig ts
  · intro h
    obtain ⟨st, hst, hstlen, hval⟩ := analyzeRhythmStability_long K fs sig ts h
    exact ⟨st, hst, hstlen, hval, npClip_mem _ 0 1 (by norm_num)⟩

/-- C9 witness: the ten-segment clipped score on the concrete kernel and a
ten-sample signal. -/
theorem C9_rhythm_stability_witness :
    (10 ≤ ([0, 0, 0, 0, 0, 0, 0, 0, 0, 0] : List ℚ).length) ∧
    (∃ st, segmentPowers K1 100 [0, 0, 0, 0, 0, 0, 0, 0, 0, 0] = .ok st ∧ st.length = 10 ∧
      analyzeRhythmStability K1 100 [0, 0, 0, 0, 0, 0, 0, 0, 0, 0] []
        = .ok (npClip (1 - K1.std st / npMean st) 0 1) ∧
      0 ≤ npClip (1 - K1.std st / npMean st) 0 1 ∧
      npClip (1 - K1.std st / npMean st) 0 1 ≤ 1) :=
  ⟨by norm_num,
    (C9_rhythm_stability K1 100 [0, 0, 0, 0, 0, 0, 0, 0, 0, 0] []).2 (by norm_num)⟩


/-! ### Error-path machinery (C5) -/

/-- A successful Welch estimate turns `detectQuantumPulse` into
`detectAfterSpectrum` on its spectrum. -/
lemma detectQuantumPulse_welch_ok {K : NumKernel} {fs : ℚ} {t : Telemetry} {u : ℚ}
    {freqs power : List ℚ}
    (hw : npWelch K t.coherence_signal fs (some (min 1024 (t.coherence_signal.length / 4)))
      = .ok (freqs, power)) :
    detectQuantumPulse K fs t u = detectAfterSpectrum K fs t u freqs power := by
  rw [detectQuantumPulse, hw]

/-- An empty spectrum (the scipy output for an empty signal) makes
`np.argmin` raise `ValueError`. -/
lemma detectAfterSpectrum_nil {K : NumKernel} {fs : ℚ} {t : Telemetry} {u : ℚ}
    {power : List ℚ} :
    detectAfterSpectrum K fs t u [] power = .error .valueError := rfl

/-- A signal shorter than 10 samples propagates the rhythm-stability
`ValueError` through `detectAfterSpectrum`. -/
lemma detectAfterSpectrum_rhythm_err {K : NumKernel} {fs : ℚ} {t : Telemetry} {u : ℚ}
    {freqs power : List ℚ} (hf : freqs ≠ [])
    (hshort : t.coherence_signal.length < 10) :
    detectAfterSpectrum K fs t u freqs power = .error .valueError := by
  cases freqs with
  | nil => exact absurd rfl hf
  | cons a as =>
    rw [detectAfterSpectrum]
    simp only [List.map_cons, npArgmin]
    rw [analyzeRhythmStability_short K fs t.coherence_signal t.timestamp hshort]

/-- With a nonempty spectrum, a signal of at least 10 samples and both
auxiliary channels present, every stage succeeds and a report is
returned. -/
lemma detectAfterSpectrum_ok {K : NumKernel} {fs : ℚ} {t : Telemetry} {u : ℚ}
    {freqs power : List ℚ} (hf : freqs ≠ [])
    (h10 : 10 ≤ t.coherence_signal.length)
    (her : ∃ er, t.error_rates = some er) (hgf : ∃ gf, t.gate_fidelities = some gf) :
    ∃ r, detectAfterSpectrum K fs t u freqs power = .ok r := by
  cases freqs with
  | nil => exact absurd rfl hf
  | cons a as =>
    rw [detectAfterSpectrum]
    simp only [List.map_cons, npArgmin]
    obtain ⟨st, hst, hstlen, hval⟩ :=
      analyzeRhythmStability_long K fs t.coherence_signal t.timestamp h10
    rw [hval]
    dsimp only
    obtain ⟨er, her⟩ := her
    obtain ⟨gf, hgf⟩ := hgf
    rw [assessSystemHealth, her, hgf]
    dsimp only
    exact ⟨_, rfl⟩

/-- C5 counterexample: on an eight-sample signal with both auxiliary
channels present (long enough by the claim, which puts the spectral minimum
at `N < 8`), `analyze` does not return a report: it raises `ValueError`
from the rhythm-stability stage — and no `InsufficientDataError` type
exists anywhere in the code. -/
theorem C5_counterexample :
    detectQuantumPulse K1 100 ⟨[1, 2, 3, 4, 5, 6, 7, 8], [], some [0.01], some [0.99]⟩ 0
      = .error .valueError := by
  have hw : npWelch K1
      (Telemetry.coherence_signal ⟨[1, 2, 3, 4, 5, 6, 7, 8], [], some [0.01], some [0.99]⟩) 100
      (some (min 1024 ((Telemetry.coherence_signal
        ⟨[1, 2, 3, 4, 5, 6, 7, 8], [], some [0.01], some [0.99]⟩).length / 4)))
      = .ok ([0, 0.67, 5], [0, 41, 20]) := by
    rw [npWelch, if_neg (by simp)]
    norm_num [K1]
  rw [detectQuantumPulse_welch_ok hw]
  exact detectAfterSpectrum_rhythm_err (by simp) (by simp)

/-- C5 (amended): the code never raises `InsufficientDataError` (no such
type exists); instead, for every kernel and telemetry: a raw signal of at
most 9 samples always makes `analyze` raise `ValueError` (from the
spectral estimator when `N//4 < 1`, i.e. `N ≤ 3`, and otherwise from the
rhythm-stability stage), and a raw signal of at least 10 samples with both
auxiliary channels present always yields a complete report. -/
theorem C5_insufficient_data (K : NumKernel) (fs : ℚ) (t : Telemetry) (u : ℚ) :
    (t.coherence_signal.length ≤ 9 → detectQuantumPulse K fs t u = .error .valueError) ∧
    (10 ≤ t.coherence_signal.length → (∃ er, t.error_rates = some er) →
      (∃ gf, t.gate_fidelities = some gf) → ∃ r, detectQuantumPulse K fs t u = .ok r) := by
  constructor
  · intro hlen
    by_cases hnil : t.coherence_signal = []
    · have hw : npWelch K t.coherence_signal fs
          (some (min 1024 (t.coherence_signal.length / 4))) = .ok ([], []) := by
        rw [npWelch, if_pos hnil]
      rw [detectQuantumPulse_welch_ok hw, detectAfterSpectrum_nil]
    · rcases Nat.lt_or_ge t.coherence_signal.length 4 with h4 | h4
      · have hdiv : t.coherence_signal.length / 4 = 0 := Nat.div_eq_of_lt h4
        rw [detectQuantumPulse, npWelch, if_neg hnil, hdiv]
        norm_num
      · have hmin1 : 1 ≤ min 1024 (t.coherence_signal.length / 4) :=
          le_min (by norm_num) (by omega)
        have h1 : 1 ≤ min (min 1024 (t.coherence_signal.length / 4))
            t.coherence_signal.length := le_min hmin1 (by omega)
        have hw : npWelch K t.coherence_signal fs
            (some (min 1024 (t.coherence_signal.length / 4)))
            = .ok ((K.welchSpectrum t.coherence_signal fs
                (min (min 1024 (t.coherence_signal.length / 4)) t.coherence_signal.length)).1,
              (K.welchSpectrum t.coherence_signal fs
                (min (min 1024 (t.coherence_signal.length / 4)) t.coherence_signal.length)).2) := by
          rw [npWelch, if_neg hnil, if_neg (Nat.not_lt.mpr hmin1)]
        have hf := K.welch_freqs_ne t.coherence_signal fs
          (min (min 1024 (t.coherence_signal.length / 4)) t.coherence_signal.length) hnil h1
        rw [detectQuantumPulse_welch_ok hw]
        exact detectAfterSpectrum_rhythm_err hf (by omega)
  · intro h10 her hgf
    have hnil : t.coherence_signal ≠ [] := by
      intro hc; rw [hc] at h10; simp at h10
    have hmin1 : 1 ≤ min 1024 (t.coherence_signal.length / 4) :=
      le_min (by norm_num) (by omega)
    have h1 : 1 ≤ min (min 1024 (t.coherence_signal.length / 4))
        t.coherence_signal.length := le_min hmin1 (by omega)
    have hw : npWelch K t.coherence_signal fs
        (some (min 1024 (t.coherence_signal.length / 4)))
        = .ok ((K.welchSpectrum t.coherence_signal fs
            (min (min 1024 (t.coherence_signal.length / 4)) t.coherence_signal.length)).1,
          (K.welchSpectrum t.coherence_signal fs
            (min (min 1024 (t.coherence_signal.length / 4)) t.coherence_signal.length)).2) := by
      rw [npWelch, if_neg hnil, if_neg (Nat.not_lt.mpr hmin1)]
    have hf := K.welch_freqs_ne t.coherence_signal fs
      (min (min 1024 (t.coherence_signal.length / 4)) t.coherence_signal.length) hnil h1
    rw [detectQuantumPulse_welch_ok hw]
    exact detectAfterSpectrum_ok hf h10 her hgf

/-- C5 witness: the always-succeeds branch at the concrete ten-sample
telemetry with both channels present. -/
theorem C5_insufficient_data_witness :
    (10 ≤ t1.coherence_signal.length) ∧
    (∃ r, detectQuantumPulse K1 100 t1 0 = .ok r) :=
  ⟨by norm_num [t1],
    (C5_insufficient_data K1 100 t1 0).2 (by norm_num [t1]) ⟨[0.01], rfl⟩ ⟨[0.99], rfl⟩⟩


/-! ### Randomness and reproducibility (C4) -/

/-- C4 counterexample: the implementation draws the benefit perturbation
from the shared global numpy generator (`np.random.uniform` with no
injectable source).  Calling `analyze` twice in succession on the identical
telemetry therefore threads the global stream and the two reports differ in
their benefit estimate — reproducibility fails without external control of
the global generator. -/
theorem C4_counterexample :
    (detectWithGlobalRng K1 100 t1 [1/100, -1/100]).1 ≠
      (detectWithGlobalRng K1 100 t1 ((detectWithGlobalRng K1 100 t1 [1/100, -1/100]).2)).1 := by
  have h1 : detectWithGlobalRng K1 100 t1 [1/100, -1/100] = (.ok (Rgen (1/100)), [-1/100]) := by
    rw [detectWithGlobalRng]
    rw [show (([1/100, -1/100] : List ℚ).headD 0) = 1/100 from rfl, detect_t1 (1/100)]
    rfl
  have h2 : detectWithGlobalRng K1 100 t1 [-1/100] = (.ok (Rgen (-1/100)), []) := by
    rw [detectWithGlobalRng]
    rw [show (([-1/100] : List ℚ).headD 0) = -1/100 from rfl, detect_t1 (-1/100)]
    rfl
  rw [h1, h2]
  intro hcon
  injection hcon with hr
  have := congrArg Report.estimated_error_reduction hr
  rw [Rgen, Rgen] at this
  norm_num [npClip, min_def, max_def] at this

/-- C4 (amended): given the same perturbation draw, `analyze` is a pure
function of the telemetry and the draw — two runs on identical telemetry
with the same draw agree bit-for-bit on every report field — and the draw
is the only randomness in the scoring path: every field except the benefit
estimate (and the interpretation derived from it) is independent of the
draw.  However, the code does not expose an injectable random source: the
draw comes from the shared global numpy generator, so consecutive calls
differ when the pulse is detected (see `C4_counterexample`). -/
theorem C4_deterministic_given_draw (K : NumKernel) (fs : ℚ) (t : Telemetry) (u₁ u₂ : ℚ)
    (r₁ r₂ : Report) (h₁ : detectQuantumPulse K fs t u₁ = .ok r₁)
    (h₂ : detectQuantumPulse K fs t u₂ = .ok r₂) :
    (u₁ = u₂ → r₁ = r₂) ∧
    r₁.quantum_pulse_detected = r₂.quantum_pulse_detected ∧
    r₁.pulse_frequency = r₂.pulse_frequency ∧
    r₁.target_frequency = r₂.target_frequency ∧
    r₁.frequency_deviation = r₂.frequency_deviation ∧
    r₁.pulse_strength = r₂.pulse_strength ∧
    r₁.snr = r₂.snr ∧
    r₁.phase_coherence = r₂.phase_coherence ∧
    r₁.rhythm_stability = r₂.rhythm_stability ∧
    r₁.system_health_score = r₂.system_health_score ∧
    r₁.system_health_status = r₂.system_health_status := by
  obtain ⟨freqs₁, power₁, hw₁, hd₁⟩ := detectQuantumPulse_ok_inv h₁
  obtain ⟨freqs₂, power₂, hw₂, hd₂⟩ := detectQuantumPulse_ok_inv h₂
  rw [hw₁] at hw₂
  injection hw₂ with hp
  injection hp with hf hpw
  subst hf hpw
  obtain ⟨idx₁, rhythm₁, hs₁, status₁, ha₁, hb₁, hc₁, hr₁⟩ := detectAfterSpectrum_ok_inv hd₁
  obtain ⟨idx₂, rhythm₂, hs₂, status₂, ha₂, hb₂, hc₂, hr₂⟩ := detectAfterSpectrum_ok_inv hd₂
  rw [ha₁] at ha₂
  injection ha₂ with hidx
  subst hidx
  rw [hb₁] at hb₂
  injection hb₂ with hrh
  subst hrh
  rw [hc₁] at hc₂
  injection hc₂ with hpair
  injection hpair with hhs hstat
  subst hhs hstat
  subst hr₁ hr₂
  exact ⟨fun h => by rw [h], rfl, rfl, rfl, rfl, rfl, rfl, rfl, rfl, rfl, rfl⟩

/-- C4 witness: determinism and draw-independence of the non-benefit fields
at two concrete runs with draws `0` and `1/100`. -/
theorem C4_deterministic_given_draw_witness :
    (detectQuantumPulse K1 100 t1 0 = .ok (Rgen 0)) ∧
    (detectQuantumPulse K1 100 t1 (1/100) = .ok (Rgen (1/100))) ∧
    (((0 : ℚ) = 1/100 → Rgen 0 = Rgen (1/100)) ∧
     (Rgen 0).quantum_pulse_detected = (Rgen (1/100)).quantum_pulse_detected ∧
     (Rgen 0).pulse_frequency = (Rgen (1/100)).pulse_frequency ∧
     (Rgen 0).target_frequency = (Rgen (1/100)).target_frequency ∧
     (Rgen 0).frequency_deviation = (Rgen (1/100)).frequency_deviation ∧
     (Rgen 0).pulse_strength = (Rgen (1/100)).pulse_strength ∧
     (Rgen 0).snr = (Rgen (1/100)).snr ∧
     (Rgen 0).phase_coherence = (Rgen (1/100)).phase_coherence ∧
     (Rgen 0).rhythm_stability = (Rgen (1/100)).rhythm_stability ∧
     (Rgen 0).system_health_score = (Rgen (1/100)).system_health_score ∧
     (Rgen 0).system_health_status = (Rgen (1/100)).system_health_status) :=
  ⟨detect_t1 0, detect_t1 (1/100),
    C4_deterministic_given_draw K1 100 t1 0 (1/100) (Rgen 0) (Rgen (1/100))
      (detect_t1 0) (detect_t1 (1/100))⟩

end ValidationDemo
